import Mathlib

/-!
Shallow embedding of the image-generation server (`src/server.js`, the
canonical variant; `src/unnamed/part_000` and `src/unnamed/part_001` are
near-identical drafts of the same server).

Modelling conventions:
- A decoded raster image is modelled by the inductive `Image`: a decoded
  source buffer carries its pixel dimensions and abstract byte content,
  and the two Jimp operations used by the code (`resize`, `crop`) are
  recorded as constructors carrying the dimensions the call requests,
  since Jimp's resize/crop always produce a bitmap of exactly the
  requested size.  Pixel resampling content is thus kept symbolic; every
  claim in scope concerns dimensions, identity of the returned buffer,
  counts and ordering, never concrete pixel values.
- JavaScript number arithmetic on ratios is embedded as exact rational
  (`ℚ`) arithmetic; `Math.round` on nonnegative reals is `floor (q + 1/2)`
  and `Math.floor` of a half of an integer is integer floor division.
- The OpenAI backend is a parameter: for the single-image path a function
  from the attempt number to that attempt's outcome, for the fast path a
  function from the composed prompt to a result, and for `/status` the
  already-retrieved batch object.
- base64 / data-URI wrapping is an injective, deterministic encoding and
  is abstracted away: responses carry the decoded `Image` values that the
  data URIs would encode.
-/

namespace ImageSrv

/-- JavaScript `Math.round` for nonnegative arguments: `floor (q + 1/2)`. -/
def jsRound (q : ℚ) : ℤ :=
  (q + 1/2).floor

/-- Pixel size pair as returned by `targetSize` in `server.js`. -/
structure SizeWH where
  w : Nat
  h : Nat
  deriving DecidableEq, Repr

/-- Function `targetSize` (`src/server.js` lines 69-73): `"4:3"` maps to 1600×1200,
everything else falls back to 1920×1080 (16:9). -/
def targetSize (aspect : String) : SizeWH :=
  if aspect = "4:3" then { w := 1600, h := 1200 }
  else { w := 1920, h := 1080 }

/-- Constant `DEFAULT_ASPECT` (`src/server.js` line 37): the fast and batch paths fix
the aspect to `"4:3"`. -/
def DEFAULT_ASPECT : String := "4:3"

/-- A decoded raster image.  `source` is a decoded input buffer (width,
height, abstract content bytes); `resized` and `cropped` record the Jimp
`resize` / `crop` calls, each of which yields a bitmap of exactly the
requested dimensions. -/
inductive Image where
  | source (w h : Nat) (bytes : List Nat)
  | resized (orig : Image) (w h : Nat)
  | cropped (orig : Image) (x y w h : Nat)
  deriving DecidableEq, Repr

/-- Bitmap width of an image. -/
def Image.width : Image → Nat
  | .source w _ _ => w
  | .resized _ w _ => w
  | .cropped _ _ _ w _ => w

/-- Bitmap height of an image. -/
def Image.height : Image → Nat
  | .source _ h _ => h
  | .resized _ _ h => h
  | .cropped _ _ _ _ h => h

/-- Function `toAspect` (`src/server.js` lines 76-103): cover-crop normalization.
Reads `W`,`H`; resolves `(TW, TH)`; if the ratio already matches within
`1e-3` and the dimensions are exactly the target, returns the image
unchanged; otherwise scales the binding axis with `Math.round` and
center-crops to exactly `TW×TH`. -/
def toAspect (img : Image) (aspect : String) : Image :=
  let TW := (targetSize aspect).w
  let TH := (targetSize aspect).h
  let W := img.width
  let H := img.height
  let R : ℚ := (TW : ℚ) / (TH : ℚ)
  let r0 : ℚ := (W : ℚ) / (H : ℚ)
  if |r0 - R| < 1/1000 ∧ W = TW ∧ H = TH then
    img
  else if r0 > R then
    -- source relatively wider: match the height, crop the width
    let scale : ℚ := (TH : ℚ) / (H : ℚ)
    let scaledW : Nat := (jsRound ((W : ℚ) * scale)).toNat
    let x : Nat := (max 0 (Int.fdiv ((scaledW : ℤ) - (TW : ℤ)) 2)).toNat
    Image.cropped (Image.resized img scaledW TH) x 0 TW TH
  else
    -- source relatively taller or equal: match the width, crop the height
    let scale : ℚ := (TW : ℚ) / (W : ℚ)
    let scaledH : Nat := (jsRound ((H : ℚ) * scale)).toNat
    let y : Nat := (max 0 (Int.fdiv ((scaledH : ℤ) - (TH : ℤ)) 2)).toNat
    Image.cropped (Image.resized img TW scaledH) 0 y TW TH

/-- Prompt composition (`src/server.js` line 162 and line 190):
the template STYLE_PREFIX ++ "\n\nSubject: " ++ raw used by both the
fast and the batch path. -/
def fullPrompt (style subject : String) : String :=
  style ++ "\n\nSubject: " ++ subject

/-- Outcome of one attempt of the backend images call, as observable by
`generateImageB64`: a transport error, a non-success HTTP status (the SDK
throws on those), or an HTTP success carrying an optional payload string
(`none` models an absent `b64_json` field; the empty string is falsy in JS
and is likewise rejected). -/
inductive AttemptOutcome where
  | netErr (msg : String)
  | httpErr (status : Nat) (msg : String)
  | okResp (b64 : Option String)
  deriving DecidableEq, Repr

/-- The error a failed attempt throws (`src/server.js` lines 110-117). -/
inductive GenError where
  | network (msg : String)
  | http (status : Nat) (msg : String)
  | emptyPayload
  deriving DecidableEq, Repr

/-- An attempt succeeds exactly when the response is an HTTP success whose
payload is present and non-empty (JS: `if (!b64) throw`). -/
def isSuccess : AttemptOutcome → Bool
  | .okResp (some s) => if s = "" then false else true
  | _ => false

/-- Payload of a successful attempt. -/
def payloadOf : AttemptOutcome → String
  | .okResp (some s) => s
  | _ => ""

/-- The error thrown by a failed attempt: a missing/empty payload raises
"Empty b64_json from API". -/
def errOf : AttemptOutcome → GenError
  | .netErr m => .network m
  | .httpErr code m => .http code m
  | .okResp _ => .emptyPayload

/-- Function `generateImageB64` (`src/server.js` lines 106-128): recursive retry with
`MAX_ATTEMPTS = 3`, starting at `attempt = 1`.  On failure with
`attempt < 3` it sleeps `1500 * attempt` ms and recurses with
`attempt + 1`; on the final attempt's failure it rethrows that error.
The backend is a function from the attempt number to that attempt's
outcome; the result pairs the thrown/returned value with the list of
delays slept, in order. -/
def generateImageB64 (backend : Nat → AttemptOutcome) (attempt : Nat) :
    Except GenError String × List Nat :=
  let o := backend attempt
  if isSuccess o then
    (.ok (payloadOf o), [])
  else if _h : attempt < 3 then
    let r := generateImageB64 backend (attempt + 1)
    (r.1, 1500 * attempt :: r.2)
  else
    (.error (errOf o), [])
termination_by 3 - attempt
decreasing_by omega

/-- The `prompts` field of the `/submit-fast` request body after the JS
destructuring `const { prompts = [] } = req.body || {}`: an array, a
non-array value, or absent (which defaults to the empty array). -/
inductive PromptsField where
  | arr (l : List String)
  | notArr
  | absent
  deriving DecidableEq

/-- JS `const limited = Array.isArray(prompts) ? prompts.slice(0, 10) : []`
(`src/server.js` line 153); an absent field defaulted to `[]`, an array. -/
def limitedOf : PromptsField → List String
  | .arr l => l.take 10
  | .notArr => []
  | .absent => []

/-- Response of the `/submit-fast` handler: HTTP 400, HTTP 500 from a
thrown generation error, or the success JSON
`{mode:"fast", count, images}`. -/
inductive FastResult where
  | badRequest (msg : String)
  | serverError (e : GenError)
  | ok (count : Nat) (images : List Image)
  deriving DecidableEq

/-- The sequential loop of `/submit-fast` (`src/server.js` lines 159-166):
for each retained prompt, compose, generate, normalize with the given
aspect, and collect the result in input order; the first thrown
generation error aborts the whole loop. -/
def runFastLoop (gen : String → Except GenError Image) (style aspect : String) :
    List String → Except GenError (List Image)
  | [] => .ok []
  | raw :: rest =>
    match gen (fullPrompt style raw) with
    | .error e => .error e
    | .ok img =>
      match runFastLoop gen style aspect rest with
      | .error e => .error e
      | .ok tail => .ok (toAspect img aspect :: tail)

/-- The `/submit-fast` handler (`src/server.js` lines 149-174).  `gen` is
the single-image generation call (already including its internal retries),
`style` the process-wide style prefix, `pf` the request's `prompts` field
and `_reqAspect` any `aspect` value in the request body — which the
handler never reads: normalization always uses `DEFAULT_ASPECT`. -/
def submitFast (gen : String → Except GenError Image) (style : String)
    (pf : PromptsField) (_reqAspect : Option String) : FastResult :=
  let limited := limitedOf pf
  if limited.length = 0 then
    .badRequest "prompts must be a non-empty array"
  else
    match runFastLoop gen style DEFAULT_ASPECT limited with
    | .ok imgs => .ok imgs.length imgs
    | .error e => .serverError e

/-- The batch object returned by `client.batches.retrieve`, restricted to
the fields `/status` reads: the status string, the `metadata.aspect`
value when present, and the parsed lines of the output file, each line
carrying its decoded image payload or `none` when
`response.body.data[0].b64_json` is absent. -/
structure BatchObj where
  status : String
  metadataAspect : Option String
  outputLines : List (Option Image)
  deriving DecidableEq

/-- JS `(b.metadata && b.metadata.aspect) || DEFAULT_ASPECT`
(`src/server.js` line 245): absent metadata or a falsy (empty) aspect
string falls back to the default aspect. -/
def aspectFromMeta (m : Option String) : String :=
  match m with
  | none => DEFAULT_ASPECT
  | some a => if a = "" then DEFAULT_ASPECT else a

/-- Response of the `/status` handler: HTTP 400 when `batch_id` is
missing, the bare status passthrough for a non-completed job, or the
completed JSON `{status:"completed", count, images}`. -/
inductive StatusResult where
  | badRequest (msg : String)
  | pending (status : String)
  | completed (count : Nat) (images : List Image)
  deriving DecidableEq

/-- The `/status` handler past the `batch_id` presence check
(`src/server.js` lines 229-250): a non-completed status is returned as
is; on completion the output lines are scanned in order, lines without a
payload are skipped (`if (!b64) continue`), and each payload is
normalized with the aspect recovered from the job metadata. -/
def statusHandler (b : BatchObj) : StatusResult :=
  if b.status ≠ "completed" then
    .pending b.status
  else
    let asp := aspectFromMeta b.metadataAspect
    let images := b.outputLines.filterMap (fun line => line.map (fun img => toAspect img asp))
    .completed images.length images

/-- Concrete sample: a square decoded image. -/
def imgSquare : Image := .source 1024 1024 []

/-- Concrete sample: an image already at the 4:3 target size. -/
def imgTarget43 : Image := .source 1600 1200 []

/-- Concrete sample: a tiny square decoded image. -/
def imgSmall : Image := .source 9 9 []

/-- Concrete sample backend returning the same small image for any prompt. -/
def genConst : String → Except GenError Image := fun _ => .ok imgSmall

/-- Concrete sample total generator for the fast path. -/
def genTotalConst : String → Image := fun _ => imgSmall

/-- Concrete sample: fifteen prompts. -/
def fifteenPrompts : List String :=
  ["p01", "p02", "p03", "p04", "p05", "p06", "p07", "p08",
   "p09", "p10", "p11", "p12", "p13", "p14", "p15"]

/-- Concrete sample backend that fails with a transport error on the first
two attempts and succeeds on the third. -/
def bkTwoFails : Nat → AttemptOutcome :=
  fun n => if n ≤ 2 then .netErr "ECONNRESET" else .okResp (some "IMGDATA")

/-- Concrete sample completed batch: three payload lines, one payloadless
line, no metadata. -/
def sampleCompleted : BatchObj :=
  { status := "completed"
    metadataAspect := none
    outputLines := [some (.source 10 20 []), some (.source 30 40 []),
                    none, some (.source 50 60 [])] }

/-- Concrete sample in-progress batch. -/
def samplePending : BatchObj :=
  { status := "in_progress"
    metadataAspect := some "4:3"
    outputLines := [some (.source 10 20 [])] }

/-- Concrete sample in-progress batch with the same status but different
result lines and metadata. -/
def samplePendingB : BatchObj :=
  { status := "in_progress"
    metadataAspect := none
    outputLines := [] }

/-- The width of a normalized image is always the target width. -/
theorem toAspect_width (img : Image) (aspect : String) :
    (toAspect img aspect).width = (targetSize aspect).w := by
  unfold toAspect
  dsimp only
  split
  · rename_i hc
    exact hc.2.1
  · split <;> rfl

/-- The height of a normalized image is always the target height. -/
theorem toAspect_height (img : Image) (aspect : String) :
    (toAspect img aspect).height = (targetSize aspect).h := by
  unfold toAspect
  dsimp only
  split
  · rename_i hc
    exact hc.2.2
  · split <;> rfl

/-- When the source already has exactly the target dimensions, `toAspect`
takes the early-return branch and gives back the same image. -/
theorem toAspect_eq_self (img : Image) (aspect : String)
    (hw : img.width = (targetSize aspect).w)
    (hh : img.height = (targetSize aspect).h) :
    toAspect img aspect = img := by
  unfold toAspect
  dsimp only
  rw [if_pos]
  refine ⟨?_, hw, hh⟩
  rw [hw, hh]
  simp

/-- One non-final step of the retry loop. -/
theorem generateImageB64_step (backend : Nat → AttemptOutcome) (attempt : Nat)
    (h : attempt < 3) :
    generateImageB64 backend attempt =
      if isSuccess (backend attempt) then
        (.ok (payloadOf (backend attempt)), [])
      else
        ((generateImageB64 backend (attempt + 1)).1,
          1500 * attempt :: (generateImageB64 backend (attempt + 1)).2) := by
  by_cases hs : isSuccess (backend attempt) = true
  · conv_lhs => unfold generateImageB64
    simp [hs]
  · conv_lhs => unfold generateImageB64
    simp [hs, h]

/-- The final failed attempt rethrows its own error with no further delay. -/
theorem generateImageB64_last (backend : Nat → AttemptOutcome) (attempt : Nat)
    (h : ¬ attempt < 3) (hs : ¬ isSuccess (backend attempt) = true) :
    generateImageB64 backend attempt = (.error (errOf (backend attempt)), []) := by
  conv_lhs => unfold generateImageB64
  simp [hs, h]

/-- A successful attempt returns its payload immediately, with no delay. -/
theorem generateImageB64_ok (backend : Nat → AttemptOutcome) (attempt : Nat)
    (hs : isSuccess (backend attempt) = true) :
    generateImageB64 backend attempt = (.ok (payloadOf (backend attempt)), []) := by
  conv_lhs => unfold generateImageB64
  simp [hs]

/-- Full case analysis of a run started at attempt 1. -/
theorem generateImageB64_run (backend : Nat → AttemptOutcome) :
    generateImageB64 backend 1 =
      if isSuccess (backend 1) then (.ok (payloadOf (backend 1)), [])
      else if isSuccess (backend 2) then (.ok (payloadOf (backend 2)), [1500])
      else if isSuccess (backend 3) then (.ok (payloadOf (backend 3)), [1500, 3000])
      else (.error (errOf (backend 3)), [1500, 3000]) := by
  by_cases h1 : isSuccess (backend 1) = true
  · rw [generateImageB64_ok backend 1 h1]
    simp [h1]
  · rw [generateImageB64_step backend 1 (by norm_num)]
    by_cases h2 : isSuccess (backend 2) = true
    · rw [show (1 : Nat) + 1 = 2 from rfl, generateImageB64_ok backend 2 h2]
      simp [h1, h2]
    · rw [show (1 : Nat) + 1 = 2 from rfl, generateImageB64_step backend 2 (by norm_num)]
      by_cases h3 : isSuccess (backend 3) = true
      · rw [show (2 : Nat) + 1 = 3 from rfl, generateImageB64_ok backend 3 h3]
        simp [h1, h2, h3]
      · rw [show (2 : Nat) + 1 = 3 from rfl,
            generateImageB64_last backend 3 (by norm_num) h3]
        simp [h1, h2, h3]

/-- Collecting the mapped payloads of a list of optional payloads is
mapping over the present payloads. -/
theorem filterMap_option_map {α β : Type} (f : α → β) (xs : List (Option α)) :
    xs.filterMap (fun o => o.map f) = (xs.filterMap id).map f := by
  induction xs with
  | nil => rfl
  | cons head tail ih =>
    cases head <;> simp [List.filterMap_cons, ih]

/-- The number of present payloads is the count of payload-carrying lines. -/
theorem length_filterMap_id {α : Type} (xs : List (Option α)) :
    (xs.filterMap id).length = xs.countP (fun o => o.isSome) := by
  induction xs with
  | nil => rfl
  | cons head tail ih =>
    cases head <;> simp [List.filterMap_cons, List.countP_cons, ih]

/-- With a generator that always succeeds, the fast loop returns one
normalized image per prompt, in input order. -/
theorem runFastLoop_ok (gen : String → Image) (style aspect : String)
    (l : List String) :
    runFastLoop (fun p => .ok (gen p)) style aspect l =
      .ok (l.map (fun raw => toAspect (gen (fullPrompt style raw)) aspect)) := by
  induction l with
  | nil => rfl
  | cons head tail ih =>
    simp [runFastLoop, ih]

/-- Every image the fast loop returns is the normalization, with the
loop's aspect, of some generated image. -/
theorem runFastLoop_mem (gen : String → Except GenError Image)
    (style aspect : String) :
    ∀ (l : List String) (imgs : List Image),
      runFastLoop gen style aspect l = .ok imgs →
      ∀ img ∈ imgs, ∃ src, img = toAspect src aspect := by
  intro l
  induction l with
  | nil =>
    intro imgs h img hm
    simp only [runFastLoop] at h
    injection h with h2
    subst h2
    exact absurd hm (by simp)
  | cons head tail ih =>
    intro imgs h img hm
    simp only [runFastLoop] at h
    cases hg : gen (fullPrompt style head) with
    | error e =>
      rw [hg] at h
      simp at h
    | ok src =>
      rw [hg] at h
      cases ht : runFastLoop gen style aspect tail with
      | error e =>
        rw [ht] at h
        simp at h
      | ok tailImgs =>
        rw [ht] at h
        simp only [] at h
        injection h with h2
        subst h2
        rcases List.mem_cons.mp hm with hh | hh
        · exact ⟨src, hh⟩
        · exact ih tailImgs ht img hh

/-- C1: for every decodable source image (arbitrary positive dimensions)
and every supported aspect ratio ("4:3" mapping to 1600×1200, "16:9"
mapping to 1920×1080), the image returned by `toAspect` has exactly the
target width and height for that ratio. -/
theorem toAspect_target_dims (img : Image) (a : String)
    (hw : 1 ≤ img.width) (hh : 1 ≤ img.height)
    (ha : a = "4:3" ∨ a = "16:9") :
    (toAspect img a).width = (targetSize a).w ∧
    (toAspect img a).height = (targetSize a).h ∧
    targetSize "4:3" = { w := 1600, h := 1200 } ∧
    targetSize "16:9" = { w := 1920, h := 1080 } :=
  ⟨toAspect_width img a, toAspect_height img a, by decide, by decide⟩

/-- Witness for C1 at a concrete 1024×1024 source and aspect "4:3". -/
theorem toAspect_target_dims_witness :
    (toAspect imgSquare "4:3").width = 1600 ∧
    (toAspect imgSquare "4:3").height = 1200 := by
  have h := toAspect_target_dims imgSquare "4:3" (by decide) (by decide) (Or.inl rfl)
  exact ⟨h.1.trans (by decide), h.2.1.trans (by decide)⟩

/-- C2: the single-image generation makes at most 3 attempts; an attempt
fails on a transport error, a non-success status, or an HTTP success with
an absent/empty payload; each failed non-final attempt is followed by a
delay growing with the attempt number (1500·attempt ms); three failures
rethrow the last attempt's error; a success at any attempt up to the 3rd
returns that attempt's payload.  The delay list has one entry per failed
non-final attempt, so the number of attempts made is its length plus 1. -/
theorem generateImageB64_retry_policy (backend : Nat → AttemptOutcome) :
    (generateImageB64 backend 1).2.length + 1 ≤ 3 ∧
    List.Chain' (fun d1 d2 => d1 < d2) (generateImageB64 backend 1).2 ∧
    (∀ m, isSuccess (.netErr m) = false) ∧
    (∀ code m, isSuccess (.httpErr code m) = false) ∧
    isSuccess (.okResp none) = false ∧
    isSuccess (.okResp (some "")) = false ∧
    ((∀ k, 1 ≤ k → k ≤ 3 → isSuccess (backend k) = false) →
      generateImageB64 backend 1 = (.error (errOf (backend 3)), [1500, 3000])) ∧
    (∀ k, 1 ≤ k → k ≤ 3 → isSuccess (backend k) = true →
      (∀ j, 1 ≤ j → j < k → isSuccess (backend j) = false) →
      generateImageB64 backend 1 =
        (.ok (payloadOf (backend k)),
          (List.range (k - 1)).map (fun i => 1500 * (i + 1)))) := by
  have hrun := generateImageB64_run backend
  refine ⟨?_, ?_, fun m => rfl, fun code m => rfl, rfl, rfl, ?_, ?_⟩
  · rw [hrun]
    split_ifs <;> simp
  · rw [hrun]
    split_ifs <;> simp [List.chain'_cons]
  · intro hf
    have h1 := hf 1 (by norm_num) (by norm_num)
    have h2 := hf 2 (by norm_num) (by norm_num)
    have h3 := hf 3 (by norm_num) (by norm_num)
    rw [hrun, if_neg (by simp [h1]), if_neg (by simp [h2]), if_neg (by simp [h3])]
  · intro k hk1 hk3 hks hprev
    interval_cases k
    · rw [hrun, if_pos hks]
      simp
    · have h1 := hprev 1 (by norm_num) (by norm_num)
      rw [hrun, if_neg (by simp [h1]), if_pos hks]
      norm_num [List.range_succ]
    · have h1 := hprev 1 (by norm_num) (by norm_num)
      have h2 := hprev 2 (by norm_num) (by norm_num)
      rw [hrun, if_neg (by simp [h1]), if_neg (by simp [h2]), if_pos hks]
      norm_num [List.range_succ]

/-- Witness for C2: a backend that fails twice then succeeds on the third
attempt returns that payload after delays 1500 and 3000. -/
theorem generateImageB64_retry_policy_witness :
    generateImageB64 bkTwoFails 1 = (.ok "IMGDATA", [1500, 3000]) := by
  have h := (generateImageB64_retry_policy bkTwoFails).2.2.2.2.2.2.2
    3 (by norm_num) (by norm_num) (by decide)
    (fun j h1 h2 => by interval_cases j <;> decide)
  rw [h]
  rfl

/-- C3: on a completed job the manifest lines are scanned in order;
payloadless lines are skipped without failing; each payload is normalized
with the aspect recovered from the job metadata (the default aspect when
metadata is absent); the count equals the number of payload-carrying
lines. -/
theorem statusHandler_completed_manifest (b : BatchObj)
    (h : b.status = "completed") :
    statusHandler b =
      .completed (b.outputLines.countP (fun o => o.isSome))
        ((b.outputLines.filterMap id).map
          (fun img => toAspect img (aspectFromMeta b.metadataAspect))) ∧
    aspectFromMeta none = DEFAULT_ASPECT := by
  refine ⟨?_, rfl⟩
  unfold statusHandler
  rw [if_neg (by simp [h])]
  dsimp only
  rw [filterMap_option_map, List.length_map, length_filterMap_id]

/-- Witness for C3: three payload lines plus one payloadless line give
exactly three images and count 3. -/
theorem statusHandler_completed_manifest_witness :
    statusHandler sampleCompleted =
      .completed 3
        [toAspect (.source 10 20 []) "4:3",
         toAspect (.source 30 40 []) "4:3",
         toAspect (.source 50 60 []) "4:3"] := by
  have h := (statusHandler_completed_manifest sampleCompleted rfl).1
  rw [h]
  rfl

/-- C4: on a list of n ≥ 1 prompts with a succeeding generator, the fast
path processes exactly the first min(n,10) prompts, silently dropping the
excess, and answers with one normalized image per retained prompt in
input order, with count min(n,10). -/
theorem submitFast_truncation (gen : String → Image) (style : String)
    (l : List String) (ra : Option String) (hne : l ≠ []) :
    submitFast (fun p => .ok (gen p)) style (.arr l) ra =
      .ok (min l.length 10)
        ((l.take 10).map
          (fun raw => toAspect (gen (fullPrompt style raw)) DEFAULT_ASPECT)) := by
  unfold submitFast
  dsimp only
  simp only [limitedOf]
  have hlen0 : ¬ (l.take 10).length = 0 := by
    rw [List.length_take]
    intro h0
    rcases Nat.min_eq_zero_iff.mp h0 with h10 | hl
    · norm_num at h10
    · exact hne (List.length_eq_zero.mp hl)
  rw [if_neg hlen0, runFastLoop_ok]
  simp [List.length_take, Nat.min_comm]

/-- Witness for C4: fifteen prompts yield exactly the first ten, count 10. -/
theorem submitFast_truncation_witness :
    submitFast (fun p => .ok (genTotalConst p)) "style" (.arr fifteenPrompts) none =
      .ok 10 ((fifteenPrompts.take 10).map
        (fun raw => toAspect (genTotalConst (fullPrompt "style" raw)) DEFAULT_ASPECT)) := by
  have h := submitFast_truncation genTotalConst "style" fifteenPrompts none (by decide)
  rw [h]
  norm_num [fifteenPrompts]

/-- C5: the composed prompt is exactly stylePrefixText ++ "\n\nSubject: "
++ subject; it begins with the style text verbatim, ends with the subject
verbatim, and distinct subjects under the same style give distinct
composed prompts. -/
theorem fullPrompt_compose_spec (style subject : String) :
    fullPrompt style subject = style ++ "\n\nSubject: " ++ subject ∧
    (∃ rest, fullPrompt style subject = style ++ rest) ∧
    (∃ front, fullPrompt style subject = front ++ subject) ∧
    ∀ other : String, subject ≠ other →
      fullPrompt style subject ≠ fullPrompt style other := by
  refine ⟨rfl, ⟨"\n\nSubject: " ++ subject, ?_⟩,
    ⟨style ++ "\n\nSubject: ", rfl⟩, ?_⟩
  · unfold fullPrompt
    rw [String.append_assoc]
  · intro other hne heq
    apply hne
    unfold fullPrompt at heq
    have hd := congrArg String.data heq
    simp only [String.data_append] at hd
    exact String.ext (List.append_cancel_left hd)

/-- Witness for C5 at concrete strings. -/
theorem fullPrompt_compose_spec_witness :
    fullPrompt "STYLE" "a dog" ≠ fullPrompt "STYLE" "a cat" :=
  (fullPrompt_compose_spec "STYLE" "a dog").2.2.2 "a cat" (by decide)

/-- C6: the fast path's aspect is not caller-selectable — the response is
independent of any aspect value in the request body — and every image in
a success response is normalized to exactly 1600×1200. -/
theorem submitFast_fixed_aspect (gen : String → Except GenError Image)
    (style : String) (pf : PromptsField) (ra ra' : Option String) :
    submitFast gen style pf ra = submitFast gen style pf ra' ∧
    ∀ count images, submitFast gen style pf ra = .ok count images →
      ∀ img ∈ images, img.width = 1600 ∧ img.height = 1200 := by
  refine ⟨rfl, fun count images hok img hmem => ?_⟩
  unfold submitFast at hok
  dsimp only at hok
  by_cases hl : (limitedOf pf).length = 0
  · rw [if_pos hl] at hok
    exact absurd hok (by simp)
  · rw [if_neg hl] at hok
    cases hr : runFastLoop gen style DEFAULT_ASPECT (limitedOf pf) with
    | error e =>
      rw [hr] at hok
      exact absurd hok (by simp)
    | ok imgs =>
      rw [hr] at hok
      simp only [] at hok
      injection hok with hc hi
      rw [← hi] at hmem
      obtain ⟨src, hsrc⟩ :=
        runFastLoop_mem gen style DEFAULT_ASPECT (limitedOf pf) imgs hr img hmem
      subst hsrc
      exact ⟨(toAspect_width src DEFAULT_ASPECT).trans (by decide),
             (toAspect_height src DEFAULT_ASPECT).trans (by decide)⟩

/-- Witness for C6: a one-prompt request carrying aspect "16:9" in the
body still gets a 1600×1200 image. -/
theorem submitFast_fixed_aspect_witness :
    (toAspect imgSmall "4:3").width = 1600 ∧
    (toAspect imgSmall "4:3").height = 1200 :=
  (submitFast_fixed_aspect genConst "s" (.arr ["a"]) (some "16:9") none).2
    1 [toAspect imgSmall "4:3"] rfl
    (toAspect imgSmall "4:3") (by simp)

/-- C7: an empty prompts list, or a prompts value that is not a list,
fails with HTTP 400 and the fixed message, and the result does not depend
on the generation backend (no backend call is consulted), the style, or
the request aspect. -/
theorem submitFast_bad_request (pf : PromptsField)
    (h : pf = .arr [] ∨ pf = .notArr)
    (gen gen' : String → Except GenError Image) (style style' : String)
    (ra ra' : Option String) :
    submitFast gen style pf ra = .badRequest "prompts must be a non-empty array" ∧
    submitFast gen style pf ra = submitFast gen' style' pf ra' := by
  rcases h with h | h <;> subst h <;> exact ⟨rfl, rfl⟩

/-- Witness for C7 at an empty list and at a non-array value. -/
theorem submitFast_bad_request_witness :
    submitFast genConst "s" (.arr []) none =
      .badRequest "prompts must be a non-empty array" ∧
    submitFast genConst "s" .notArr (some "4:3") =
      .badRequest "prompts must be a non-empty array" :=
  ⟨(submitFast_bad_request (.arr []) (Or.inl rfl) genConst genConst "s" "s"
      none none).1,
   (submitFast_bad_request .notArr (Or.inr rfl) genConst genConst "s" "s"
      (some "4:3") (some "4:3")).1⟩

/-- C8: for a job whose backend status is anything other than "completed",
`/status` returns only that status, and the response is independent of
the job's result lines and metadata (no result download, no
normalization). -/
theorem statusHandler_pending_passthrough (b : BatchObj)
    (h : b.status ≠ "completed") :
    statusHandler b = .pending b.status ∧
    ∀ b' : BatchObj, b'.status = b.status → statusHandler b' = statusHandler b := by
  have hb : statusHandler b = .pending b.status := by
    unfold statusHandler
    rw [if_pos h]
  refine ⟨hb, fun b' hs => ?_⟩
  have hb' : statusHandler b' = .pending b'.status := by
    unfold statusHandler
    rw [if_pos (by rw [hs]; exact h)]
  rw [hb', hb, hs]

/-- Witness for C8: an in-progress job returns exactly its status, and a
job with the same status but different lines and metadata gets the same
response. -/
theorem statusHandler_pending_passthrough_witness :
    statusHandler samplePending = .pending "in_progress" ∧
    statusHandler samplePendingB = statusHandler samplePending := by
  have h := statusHandler_pending_passthrough samplePending (by decide)
  exact ⟨h.1, h.2 samplePendingB rfl⟩

/-- C9: an image that already has the target ratio (within the 1e-3
tolerance, automatic at the exact target dimensions) and exactly the
target dimensions is returned unchanged, so under the deterministic
encoder normalization is idempotent on such images. -/
theorem toAspect_idempotent_on_target (img : Image) (a : String)
    (hw : img.width = (targetSize a).w) (hh : img.height = (targetSize a).h) :
    toAspect img a = img ∧
    toAspect (toAspect img a) a = toAspect img a := by
  have h := toAspect_eq_self img a hw hh
  exact ⟨h, by rw [h]; exact h⟩

/-- Witness for C9 at a concrete 1600×1200 image and aspect "4:3". -/
theorem toAspect_idempotent_on_target_witness :
    toAspect imgTarget43 "4:3" = imgTarget43 ∧
    toAspect (toAspect imgTarget43 "4:3") "4:3" = toAspect imgTarget43 "4:3" :=
  toAspect_idempotent_on_target imgTarget43 "4:3" (by decide) (by decide)

/-- C10: `targetSize` is total: every aspect string other than exactly
"4:3" — including unrecognized or malformed ones — resolves to the 16:9
fallback 1920×1080, and normalization with such an aspect still returns
an image of exactly those dimensions rather than failing. -/
theorem targetSize_total_fallback (a : String) (h : a ≠ "4:3") :
    targetSize a = { w := 1920, h := 1080 } ∧
    ∀ img : Image, 1 ≤ img.width → 1 ≤ img.height →
      (toAspect img a).width = 1920 ∧ (toAspect img a).height = 1080 := by
  have ht : targetSize a = { w := 1920, h := 1080 } := by
    unfold targetSize
    rw [if_neg h]
  refine ⟨ht, fun img _ _ => ?_⟩
  constructor
  · rw [toAspect_width, ht]
  · rw [toAspect_height, ht]

/-- Witness for C10 at a malformed aspect string. -/
theorem targetSize_total_fallback_witness :
    targetSize "banana" = { w := 1920, h := 1080 } ∧
    (toAspect (Image.source 5 7 []) "banana").width = 1920 ∧
    (toAspect (Image.source 5 7 []) "banana").height = 1080 := by
  have h := targetSize_total_fallback "banana" (by decide)
  exact ⟨h.1, h.2 (Image.source 5 7 []) (by decide) (by decide)⟩

end ImageSrv
